import Mathlib

/-!
Verification of the product-creation workflow in
`src/lib/services/productService.ts`.

The TypeScript module exposes `createProduct(data, userId)`, which
validates that an image is present, optimizes the image, builds a
thumbnail, uploads both blobs to object storage under generated keys,
resolves public URLs, inserts a product row, issues compensating
delete calls when the insert fails, and wraps every failure through a
top-level catch.

We model the asynchronous environment (browser image decoding /
canvas, storage client, record store) as an oracle `Env` fixing the
outcome of each external operation for one invocation.  Every
asynchronous operation is given the JavaScript semantics of a promise:
it either resolves with a result value or rejects with a thrown value
(`JsVal`), and `await` propagates rejection.  The storage and record
clients resolve with supabase-style result objects carrying an
optional `error` field.  The interpreter additionally records a trace
of the external calls it performs, so that claims counting insert,
upload and delete calls can be stated.
-/

namespace ProductService

/-- A JavaScript thrown value: either an `Error` object with a message,
or any non-`Error` value (whose textual content we keep for reference). -/
inductive JsVal where
  | errorVal (msg : String)
  | otherVal (msg : String)
deriving DecidableEq

/-- Supabase-style result object for `upload`, `insert` and `remove`:
the operation resolved, possibly reporting an error in its payload. -/
structure StorageResult where
  error : Option String
deriving DecidableEq

/-- The success payload of `createProduct`: the literal `{ success: true }`. -/
structure SuccessMarker where
  success : Bool
deriving DecidableEq

/-- The `image` field of the form: a `File`, of which the workflow only
inspects the `name` (its bytes are handled by the opaque browser APIs,
which the environment oracle models). -/
structure ImageFile where
  name : String
deriving DecidableEq

/-- `ProductFormData` from `src/lib/types/product.ts`: four required
string fields and an optional image file. -/
structure ProductFormData where
  name : String
  marketplace : String
  marketplace_product_id : String
  giveaway : String
  image : Option ImageFile
deriving DecidableEq

/-- An encoded image blob: its pixel dimensions and the JPEG quality
(in percent) it was encoded at. -/
structure Blob where
  width : Nat
  height : Nat
  quality : Nat
deriving DecidableEq

/-- The row inserted into the `products` table. -/
structure ProductRow where
  name : String
  marketplace : String
  marketplace_product_id : String
  giveaway : String
  image_path : String
  thumbnail_path : String
  user_id : String
deriving DecidableEq

/-- Observable external calls made by one invocation of the workflow. -/
inductive Event where
  | optimizeCall (file : ImageFile)
  | thumbnailCall (blob : Blob)
  | uploadCall (path : String) (blob : Blob)
  | publicUrlCall (path : String)
  | insertCall (row : ProductRow)
  | removeCall (path : String)
deriving DecidableEq

/-- Environment oracle for one invocation: outcomes of the browser image
APIs, the clock and random token, and the storage / record clients.
A `Except.error` outcome models a rejected promise. -/
structure Env where
  /-- Dimensions obtained by decoding the input file; `none` models the
  `img.onerror` path of `optimizeImage`. -/
  fileDims : Option (Nat × Nat)
  /-- Whether `canvas.getContext` succeeds inside `optimizeImage`. -/
  optCtxOk : Bool
  /-- Whether `canvas.toBlob` produces a blob inside `optimizeImage`. -/
  optBlobOk : Bool
  /-- Whether decoding the optimized blob succeeds inside `createThumbnail`. -/
  thumbLoadOk : Bool
  /-- Whether `canvas.getContext` succeeds inside `createThumbnail`. -/
  thumbCtxOk : Bool
  /-- Whether `canvas.toBlob` produces a blob inside `createThumbnail`. -/
  thumbBlobOk : Bool
  /-- Value of `Date.now()` at this invocation. -/
  now : Nat
  /-- Value of `Math.random().toString(36).substr(2, 9)` at this invocation. -/
  randomToken : String
  /-- Outcome of `supabase.storage.from('products').upload(path, blob, opts)`. -/
  upload : String → Except JsVal StorageResult
  /-- Result of `supabase.storage.from('products').getPublicUrl(path)`
  (synchronous, always returns a URL). -/
  publicUrl : String → String
  /-- Outcome of `supabase.from('products').insert(row)`. -/
  insert : ProductRow → Except JsVal StorageResult
  /-- Outcome of `supabase.storage.from('products').remove([path])`. -/
  remove : String → Except JsVal StorageResult

/-- JavaScript `String.prototype.split` restricted to a single-character
separator, acting on the character list of the string: `"a.b".split('.')`
gives `["a", "b"]`, `"a.".split('.')` gives `["a", ""]`, `"".split('.')`
gives `[""]`. -/
def splitOnChar (sep : Char) : List Char → List (List Char)
  | [] => [[]]
  | c :: cs =>
    match splitOnChar sep cs with
    | [] => [[]]
    | g :: gs => if c = sep then [] :: g :: gs else (c :: g) :: gs

/-- The extension computation `data.image.name.split('.').pop() || 'jpg'`:
the last group of the dot-split of the filename, with `"jpg"` substituted
when that group is the empty string (the `||` on a falsy string; also the
JavaScript `undefined` from popping an empty array, which `split` never
produces). -/
def extOf (name : String) : String :=
  let e := (splitOnChar '.' name.data).getLastD []
  if e = [] then "jpg" else String.mk e

/-- `baseFilename` from the source:
`Date.now() + '_' + Math.random().toString(36).substr(2, 9)`. -/
def baseFilenameOf (env : Env) : String :=
  toString env.now ++ "_" ++ env.randomToken

/-- The storage key of the main image:
`userId + '/' + baseFilename + '.' + ext`. -/
def imagePathOf (env : Env) (userId fname : String) : String :=
  userId ++ "/" ++ baseFilenameOf env ++ "." ++ extOf fname

/-- The storage key of the thumbnail:
`userId + '/' + baseFilename + '_thumb.' + ext`. -/
def thumbnailPathOf (env : Env) (userId fname : String) : String :=
  userId ++ "/" ++ baseFilenameOf env ++ "_thumb." ++ extOf fname

/-- JavaScript `Math.round(a / b)` on nonnegative integers: rounding
half up, computed as `(2 * a + b) / (2 * b)` in integer division. -/
def jsRound (num den : Nat) : Nat :=
  (2 * num + den) / (2 * den)

/-- The dimension computation of `createThumbnail` with
`maxWidth = maxHeight = 200`: if `width > height`, the new height is
`Math.round(height * 200 / width)` and the width is capped at 200,
otherwise the new width is `Math.round(width * 200 / height)` and the
height is capped at 200. -/
def thumbDims (width height : Nat) : Nat × Nat :=
  if width > height then (200, jsRound (height * 200) width)
  else (jsRound (width * 200) height, 200)

/-- `optimizeImage(file)`: decode the file (rejecting with
`Failed to load image` on decode failure), acquire a canvas context
(rejecting with `Failed to get canvas context` when unavailable), draw at
the original dimensions and re-encode as JPEG at quality 0.8 (rejecting
with `Failed to create blob` when `toBlob` yields `null`). -/
def optimizeImage (env : Env) (_file : ImageFile) : Except JsVal Blob :=
  match env.fileDims with
  | none => .error (.errorVal "Failed to load image")
  | some wh =>
    if env.optCtxOk then
      if env.optBlobOk then .ok { width := wh.1, height := wh.2, quality := 80 }
      else .error (.errorVal "Failed to create blob")
    else .error (.errorVal "Failed to get canvas context")

/-- `createThumbnail(file)`: decode the optimized blob (rejecting with
`Failed to load image for thumbnail`), compute the capped dimensions,
acquire a context (rejecting with `Failed to get canvas context`), draw
scaled and re-encode as JPEG at quality 0.7 (rejecting with
`Failed to create thumbnail` when `toBlob` yields `null`). -/
def createThumbnail (env : Env) (blob : Blob) : Except JsVal Blob :=
  if env.thumbLoadOk then
    if env.thumbCtxOk then
      if env.thumbBlobOk then
        .ok { width := (thumbDims blob.width blob.height).1,
              height := (thumbDims blob.width blob.height).2, quality := 70 }
      else .error (.errorVal "Failed to create thumbnail")
    else .error (.errorVal "Failed to get canvas context")
  else .error (.errorVal "Failed to load image for thumbnail")

/-- The row handed to `supabase.from('products').insert`: form fields,
the two public URLs, and the owning user. -/
def productRowOf (env : Env) (data : ProductFormData) (userId fname : String) :
    ProductRow :=
  { name := data.name
    marketplace := data.marketplace
    marketplace_product_id := data.marketplace_product_id
    giveaway := data.giveaway
    image_path := env.publicUrl (imagePathOf env userId fname)
    thumbnail_path := env.publicUrl (thumbnailPathOf env userId fname)
    user_id := userId }

/-- The body of the `try` block of `createProduct`, returning the
outcome (resolved success marker or thrown value) together with the
trace of external calls.  `Promise.all` dispatches both of its operands
(both calls appear in the trace) and rejects with the first rejection
when one of them rejects. -/
def createProductInner (env : Env) (data : ProductFormData) (userId : String) :
    Except JsVal SuccessMarker × List Event :=
  match data.image with
  | none => (.error (.errorVal "Product image is required"), [])
  | some image =>
    match optimizeImage env image with
    | .error e => (.error e, [.optimizeCall image])
    | .ok optimizedImage =>
      match createThumbnail env optimizedImage with
      | .error e => (.error e, [.optimizeCall image, .thumbnailCall optimizedImage])
      | .ok thumbnail =>
        match env.upload (imagePathOf env userId image.name),
              env.upload (thumbnailPathOf env userId image.name) with
        | .error e, _ =>
          (.error e,
           [.optimizeCall image, .thumbnailCall optimizedImage,
            .uploadCall (imagePathOf env userId image.name) optimizedImage,
            .uploadCall (thumbnailPathOf env userId image.name) thumbnail])
        | .ok _, .error e =>
          (.error e,
           [.optimizeCall image, .thumbnailCall optimizedImage,
            .uploadCall (imagePathOf env userId image.name) optimizedImage,
            .uploadCall (thumbnailPathOf env userId image.name) thumbnail])
        | .ok imageUpload, .ok thumbnailUpload =>
          match imageUpload.error with
          | some m =>
            (.error (.errorVal ("Failed to upload image: " ++ m)),
             [.optimizeCall image, .thumbnailCall optimizedImage,
              .uploadCall (imagePathOf env userId image.name) optimizedImage,
              .uploadCall (thumbnailPathOf env userId image.name) thumbnail])
          | none =>
            match thumbnailUpload.error with
            | some m =>
              (.error (.errorVal ("Failed to upload thumbnail: " ++ m)),
               [.optimizeCall image, .thumbnailCall optimizedImage,
                .uploadCall (imagePathOf env userId image.name) optimizedImage,
                .uploadCall (thumbnailPathOf env userId image.name) thumbnail])
            | none =>
              match env.insert (productRowOf env data userId image.name) with
              | .error e =>
                (.error e,
                 [.optimizeCall image, .thumbnailCall optimizedImage,
                  .uploadCall (imagePathOf env userId image.name) optimizedImage,
                  .uploadCall (thumbnailPathOf env userId image.name) thumbnail,
                  .publicUrlCall (imagePathOf env userId image.name),
                  .publicUrlCall (thumbnailPathOf env userId image.name),
                  .insertCall (productRowOf env data userId image.name)])
              | .ok ins =>
                match ins.error with
                | none =>
                  (.ok { success := true },
                   [.optimizeCall image, .thumbnailCall optimizedImage,
                    .uploadCall (imagePathOf env userId image.name) optimizedImage,
                    .uploadCall (thumbnailPathOf env userId image.name) thumbnail,
                    .publicUrlCall (imagePathOf env userId image.name),
                    .publicUrlCall (thumbnailPathOf env userId image.name),
                    .insertCall (productRowOf env data userId image.name)])
                | some m =>
                  match env.remove (imagePathOf env userId image.name),
                        env.remove (thumbnailPathOf env userId image.name) with
                  | .error e, _ =>
                    (.error e,
                     [.optimizeCall image, .thumbnailCall optimizedImage,
                      .uploadCall (imagePathOf env userId image.name) optimizedImage,
                      .uploadCall (thumbnailPathOf env userId image.name) thumbnail,
                      .publicUrlCall (imagePathOf env userId image.name),
                      .publicUrlCall (thumbnailPathOf env userId image.name),
                      .insertCall (productRowOf env data userId image.name),
                      .removeCall (imagePathOf env userId image.name),
                      .removeCall (thumbnailPathOf env userId image.name)])
                  | .ok _, .error e =>
                    (.error e,
                     [.optimizeCall image, .thumbnailCall optimizedImage,
                      .uploadCall (imagePathOf env userId image.name) optimizedImage,
                      .uploadCall (thumbnailPathOf env userId image.name) thumbnail,
                      .publicUrlCall (imagePathOf env userId image.name),
                      .publicUrlCall (thumbnailPathOf env userId image.name),
                      .insertCall (productRowOf env data userId image.name),
                      .removeCall (imagePathOf env userId image.name),
                      .removeCall (thumbnailPathOf env userId image.name)])
                  | .ok _, .ok _ =>
                    (.error (.errorVal ("Failed to create product: " ++ m)),
                     [.optimizeCall image, .thumbnailCall optimizedImage,
                      .uploadCall (imagePathOf env userId image.name) optimizedImage,
                      .uploadCall (thumbnailPathOf env userId image.name) thumbnail,
                      .publicUrlCall (imagePathOf env userId image.name),
                      .publicUrlCall (thumbnailPathOf env userId image.name),
                      .insertCall (productRowOf env data userId image.name),
                      .removeCall (imagePathOf env userId image.name),
                      .removeCall (thumbnailPathOf env userId image.name)])

/-- The `catch` clause of `createProduct`:
`throw error instanceof Error ? error : new Error('Failed to create product')`. -/
def jsCatchWrap : JsVal → JsVal
  | .errorVal m => .errorVal m
  | .otherVal _ => .errorVal "Failed to create product"

/-- Applies the top-level catch to an outcome: a resolved value passes
through; a thrown value is re-thrown after `jsCatchWrap`. -/
def applyCatch : Except JsVal SuccessMarker → Except JsVal SuccessMarker
  | .ok v => .ok v
  | .error e => .error (jsCatchWrap e)

/-- `createProduct(data, userId)`: the try block wrapped by the
top-level catch; the trace is unchanged by the catch. -/
def createProduct (env : Env) (data : ProductFormData) (userId : String) :
    Except JsVal SuccessMarker × List Event :=
  (applyCatch (createProductInner env data userId).1,
   (createProductInner env data userId).2)

/-- Rows passed to record-store insert calls in a trace. -/
def insertEvents (tr : List Event) : List ProductRow :=
  tr.filterMap fun e =>
    match e with
    | .insertCall r => some r
    | _ => none

/-- Keys passed to storage delete calls in a trace. -/
def removeEvents (tr : List Event) : List String :=
  tr.filterMap fun e =>
    match e with
    | .removeCall p => some p
    | _ => none

/-- Keys passed to storage upload calls in a trace. -/
def uploadEvents (tr : List Event) : List String :=
  tr.filterMap fun e =>
    match e with
    | .uploadCall p _ => some p
    | _ => none

/-- An environment in which every external operation succeeds. -/
def okEnv : Env :=
  { fileDims := some (400, 200), optCtxOk := true, optBlobOk := true,
    thumbLoadOk := true, thumbCtxOk := true, thumbBlobOk := true,
    now := 1, randomToken := "tok",
    upload := fun _ => .ok { error := none },
    publicUrl := fun p => "https://cdn.example/" ++ p,
    insert := fun _ => .ok { error := none },
    remove := fun _ => .ok { error := none } }

/-- A well-formed form submission with an image named `pic.png`. -/
def okData : ProductFormData :=
  { name := "Widget", marketplace := "amazon",
    marketplace_product_id := "B00X", giveaway := "1",
    image := some { name := "pic.png" } }

/-- The same form submission with the image field absent. -/
def noImageData : ProductFormData :=
  { name := "Widget", marketplace := "amazon",
    marketplace_product_id := "B00X", giveaway := "1",
    image := none }

/-- Two appended strings differing at a position inside both left parts
are distinct, whatever the right parts are. -/
theorem string_append_left_ne (p q s t : String) (i : Nat)
    (hip : i < p.data.length) (hiq : i < q.data.length)
    (hne : p.data[i]? ≠ q.data[i]?) : p ++ s ≠ q ++ t := by
  intro h
  have hd : p.data ++ s.data = q.data ++ t.data := congrArg String.data h
  have hi := congrArg (fun l => l[i]?) hd
  simp only at hi
  rw [List.getElem?_append_left hip, List.getElem?_append_left hiq] at hi
  exact hne hi

end ProductService

namespace ProductService

/-- C2: when the form has no image, `createProduct` rejects with the
validation error `Product image is required` and performs no image
processing, upload, URL resolution, insert or delete call at all
(the trace is empty). -/
theorem missing_image_validation (env : Env) (data : ProductFormData)
    (userId : String) (himg : data.image = none) :
    createProduct env data userId =
      (.error (.errorVal "Product image is required"), []) := by
  simp [createProduct, createProductInner, applyCatch, jsCatchWrap, himg]

/-- Witness for C2 at a concrete form with no image. -/
theorem missing_image_validation_witness :
    noImageData.image = none ∧
      createProduct okEnv noImageData "u" =
        (.error (.errorVal "Product image is required"), []) :=
  ⟨rfl, missing_image_validation okEnv noImageData "u" rfl⟩

/-- C1: when an image is present and optimization, thumbnail creation,
both uploads and the record insert all succeed, `createProduct` performs
exactly one insert, whose row carries the form fields, the user id, and
the public URLs of the two generated keys, and resolves with the bare
success marker. -/
theorem success_single_insert (env : Env) (data : ProductFormData)
    (userId : String) (img : ImageFile) (himg : data.image = some img)
    (w h : Nat) (hdims : env.fileDims = some (w, h))
    (hc1 : env.optCtxOk = true) (hc2 : env.optBlobOk = true)
    (hc3 : env.thumbLoadOk = true) (hc4 : env.thumbCtxOk = true)
    (hc5 : env.thumbBlobOk = true)
    (hup1 : env.upload (imagePathOf env userId img.name) = .ok { error := none })
    (hup2 : env.upload (thumbnailPathOf env userId img.name) = .ok { error := none })
    (hins : env.insert (productRowOf env data userId img.name) = .ok { error := none }) :
    (createProduct env data userId).1 = .ok { success := true } ∧
    insertEvents (createProduct env data userId).2 =
      [{ name := data.name, marketplace := data.marketplace,
         marketplace_product_id := data.marketplace_product_id,
         giveaway := data.giveaway,
         image_path := env.publicUrl (imagePathOf env userId img.name),
         thumbnail_path := env.publicUrl (thumbnailPathOf env userId img.name),
         user_id := userId }] := by
  have hins' : env.insert
      { name := data.name, marketplace := data.marketplace,
        marketplace_product_id := data.marketplace_product_id,
        giveaway := data.giveaway,
        image_path := env.publicUrl (imagePathOf env userId img.name),
        thumbnail_path := env.publicUrl (thumbnailPathOf env userId img.name),
        user_id := userId } = .ok { error := none } := by
    simpa [productRowOf] using hins
  constructor <;>
    simp [createProduct, createProductInner, applyCatch, optimizeImage,
      createThumbnail, insertEvents, himg, hdims, hc1, hc2, hc3, hc4, hc5,
      hup1, hup2, hins', productRowOf]

/-- Witness for C1 at a concrete all-success environment. -/
theorem success_single_insert_witness :
    okData.image = some { name := "pic.png" } ∧
    okEnv.upload (imagePathOf okEnv "u" "pic.png") = .ok { error := none } ∧
    (createProduct okEnv okData "u").1 = .ok { success := true } ∧
    insertEvents (createProduct okEnv okData "u").2 =
      [{ name := "Widget", marketplace := "amazon",
         marketplace_product_id := "B00X", giveaway := "1",
         image_path := "https://cdn.example/u/1_tok.png",
         thumbnail_path := "https://cdn.example/u/1_tok_thumb.png",
         user_id := "u" }] := by
  have h := success_single_insert okEnv okData "u" { name := "pic.png" } rfl
    400 200 rfl rfl rfl rfl rfl rfl rfl rfl rfl
  refine ⟨rfl, rfl, h.1, ?_⟩
  rw [h.2]
  rfl

/-- C3: when the workflow reaches the two uploads and at least one of
them resolves with an error in its result, no insert call and no delete
call is made, and the workflow rejects with an upload error naming the
failing asset (the image when its upload failed, otherwise the
thumbnail). -/
theorem upload_error_blocks_insert (env : Env) (data : ProductFormData)
    (userId : String) (img : ImageFile) (himg : data.image = some img)
    (w h : Nat) (hdims : env.fileDims = some (w, h))
    (hc1 : env.optCtxOk = true) (hc2 : env.optBlobOk = true)
    (hc3 : env.thumbLoadOk = true) (hc4 : env.thumbCtxOk = true)
    (hc5 : env.thumbBlobOk = true)
    (r1 r2 : StorageResult)
    (hup1 : env.upload (imagePathOf env userId img.name) = .ok r1)
    (hup2 : env.upload (thumbnailPathOf env userId img.name) = .ok r2)
    (herr : r1.error.isSome ∨ r2.error.isSome) :
    insertEvents (createProduct env data userId).2 = [] ∧
    removeEvents (createProduct env data userId).2 = [] ∧
    ((∃ m, r1.error = some m ∧
        (createProduct env data userId).1 =
          .error (.errorVal ("Failed to upload image: " ++ m))) ∨
     (r1.error = none ∧ ∃ m, r2.error = some m ∧
        (createProduct env data userId).1 =
          .error (.errorVal ("Failed to upload thumbnail: " ++ m)))) := by
  rcases he1 : r1.error with _ | m1
  · rcases he2 : r2.error with _ | m2
    · rw [he1, he2] at herr
      simp at herr
    · refine ⟨?_, ?_, Or.inr ⟨rfl, m2, rfl, ?_⟩⟩ <;>
        simp [createProduct, createProductInner, applyCatch, jsCatchWrap,
          optimizeImage, createThumbnail, insertEvents, removeEvents,
          himg, hdims, hc1, hc2, hc3, hc4, hc5, hup1, hup2, he1, he2]
  · refine ⟨?_, ?_, Or.inl ⟨m1, rfl, ?_⟩⟩ <;>
      simp [createProduct, createProductInner, applyCatch, jsCatchWrap,
        optimizeImage, createThumbnail, insertEvents, removeEvents,
        himg, hdims, hc1, hc2, hc3, hc4, hc5, hup1, hup2, he1]

/-- An environment in which both uploads resolve with errors. -/
def bothUploadsFailEnv : Env :=
  { okEnv with upload := fun _ => .ok { error := some "quota exceeded" } }

/-- Witness for C3: both uploads fail, no insert and no delete happen,
and the surfaced error names the image upload. -/
theorem upload_error_blocks_insert_witness :
    okData.image = some { name := "pic.png" } ∧
    (({ error := some "quota exceeded" } : StorageResult).error.isSome ∨
      ({ error := some "quota exceeded" } : StorageResult).error.isSome) ∧
    insertEvents (createProduct bothUploadsFailEnv okData "u").2 = [] ∧
    removeEvents (createProduct bothUploadsFailEnv okData "u").2 = [] ∧
    (createProduct bothUploadsFailEnv okData "u").1 =
      .error (.errorVal ("Failed to upload image: " ++ "quota exceeded")) := by
  have h := upload_error_blocks_insert bothUploadsFailEnv okData "u"
    { name := "pic.png" } rfl 400 200 rfl rfl rfl rfl rfl rfl
    { error := some "quota exceeded" } { error := some "quota exceeded" }
    rfl rfl (Or.inl rfl)
  refine ⟨rfl, Or.inl rfl, h.1, h.2.1, ?_⟩
  rcases h.2.2 with ⟨m, hm, hres⟩ | ⟨hnone, _⟩
  · cases hm
    exact hres
  · cases hnone

/-- C10: when both uploads resolve with errors, the rejection surfaced
by `createProduct` is the image upload's error (checked first), and no
string of the thumbnail-error shape is ever equal to it, so the
thumbnail upload's message is not surfaced. -/
theorem both_upload_errors_image_first (env : Env) (data : ProductFormData)
    (userId : String) (img : ImageFile) (himg : data.image = some img)
    (w h : Nat) (hdims : env.fileDims = some (w, h))
    (hc1 : env.optCtxOk = true) (hc2 : env.optBlobOk = true)
    (hc3 : env.thumbLoadOk = true) (hc4 : env.thumbCtxOk = true)
    (hc5 : env.thumbBlobOk = true)
    (m1 m2 : String)
    (hup1 : env.upload (imagePathOf env userId img.name) = .ok { error := some m1 })
    (hup2 : env.upload (thumbnailPathOf env userId img.name) = .ok { error := some m2 }) :
    (createProduct env data userId).1 =
      .error (.errorVal ("Failed to upload image: " ++ m1)) ∧
    ∀ s : String,
      ("Failed to upload image: " ++ s) ≠ ("Failed to upload thumbnail: " ++ m2) := by
  constructor
  · simp [createProduct, createProductInner, applyCatch, jsCatchWrap,
      optimizeImage, createThumbnail, himg, hdims, hc1, hc2, hc3, hc4, hc5,
      hup1, hup2]
  · intro s
    exact string_append_left_ne _ _ s m2 17 (by decide) (by decide) (by decide)

/-- Upload oracle failing the image key with `img boom` and every
other key with `thumb boom`. -/
def uploadBothFail (p : String) : Except JsVal StorageResult :=
  if p = imagePathOf okEnv "u" "pic.png" then .ok { error := some "img boom" }
  else .ok { error := some "thumb boom" }

/-- Environment in which the image upload fails with `img boom` and the
thumbnail upload fails with `thumb boom`. -/
def bothUploadsFailEnv2 : Env := { okEnv with upload := uploadBothFail }

/-- Witness for C10: the image error is the one surfaced. -/
theorem both_upload_errors_image_first_witness :
    okData.image = some { name := "pic.png" } ∧
    (createProduct bothUploadsFailEnv2 okData "u").1 =
      .error (.errorVal ("Failed to upload image: " ++ "img boom")) := by
  have h := both_upload_errors_image_first bothUploadsFailEnv2 okData "u"
    { name := "pic.png" } rfl 400 200 rfl rfl rfl rfl rfl rfl
    "img boom" "thumb boom" rfl rfl
  exact ⟨rfl, h.1⟩

/-- C4 (amended): when both uploads succeed, the insert resolves with an
error, and both compensating delete calls resolve, `createProduct`
issues exactly two delete calls — for the image key and the thumbnail
key, the same two keys that were uploaded — and rejects with
`Failed to create product: ` followed by the insert's message.  (The
resolution hypotheses on the deletes are needed because the source
awaits `Promise.all` of the two removes before throwing: a rejecting
delete propagates instead, see the counterexample.) -/
theorem insert_error_two_deletes (env : Env) (data : ProductFormData)
    (userId : String) (img : ImageFile) (himg : data.image = some img)
    (w h : Nat) (hdims : env.fileDims = some (w, h))
    (hc1 : env.optCtxOk = true) (hc2 : env.optBlobOk = true)
    (hc3 : env.thumbLoadOk = true) (hc4 : env.thumbCtxOk = true)
    (hc5 : env.thumbBlobOk = true)
    (hup1 : env.upload (imagePathOf env userId img.name) = .ok { error := none })
    (hup2 : env.upload (thumbnailPathOf env userId img.name) = .ok { error := none })
    (m : String)
    (hins : env.insert (productRowOf env data userId img.name) =
      .ok { error := some m })
    (rr1 rr2 : StorageResult)
    (hrm1 : env.remove (imagePathOf env userId img.name) = .ok rr1)
    (hrm2 : env.remove (thumbnailPathOf env userId img.name) = .ok rr2) :
    removeEvents (createProduct env data userId).2 =
      [imagePathOf env userId img.name, thumbnailPathOf env userId img.name] ∧
    uploadEvents (createProduct env data userId).2 =
      [imagePathOf env userId img.name, thumbnailPathOf env userId img.name] ∧
    (createProduct env data userId).1 =
      .error (.errorVal ("Failed to create product: " ++ m)) := by
  have hins' : env.insert
      { name := data.name, marketplace := data.marketplace,
        marketplace_product_id := data.marketplace_product_id,
        giveaway := data.giveaway,
        image_path := env.publicUrl (imagePathOf env userId img.name),
        thumbnail_path := env.publicUrl (thumbnailPathOf env userId img.name),
        user_id := userId } = .ok { error := some m } := by
    simpa [productRowOf] using hins
  refine ⟨?_, ?_, ?_⟩ <;>
    simp [createProduct, createProductInner, applyCatch, jsCatchWrap,
      optimizeImage, createThumbnail, removeEvents, uploadEvents,
      himg, hdims, hc1, hc2, hc3, hc4, hc5, hup1, hup2, hins', hrm1, hrm2,
      productRowOf]

/-- Environment in which the insert fails and both deletes resolve. -/
def insertFailEnv : Env :=
  { okEnv with
    insert := fun _ => .ok { error := some "db fail" } }

/-- Witness for C4 (amended): two deletes, for exactly the uploaded
keys, then the insert error is surfaced. -/
theorem insert_error_two_deletes_witness :
    okData.image = some { name := "pic.png" } ∧
    removeEvents (createProduct insertFailEnv okData "u").2 =
      ["u/1_tok.png", "u/1_tok_thumb.png"] ∧
    (createProduct insertFailEnv okData "u").1 =
      .error (.errorVal ("Failed to create product: " ++ "db fail")) := by
  have h := insert_error_two_deletes insertFailEnv okData "u"
    { name := "pic.png" } rfl 400 200 rfl rfl rfl rfl rfl rfl rfl rfl
    "db fail" rfl { error := none } { error := none } rfl rfl
  refine ⟨rfl, ?_, h.2.2⟩
  rw [h.1]
  rfl

/-- Environment in which the insert resolves with an error and every
delete call rejects. -/
def insertFailRemoveRejectEnv : Env :=
  { okEnv with
    insert := fun _ => .ok { error := some "db down" },
    remove := fun _ => .error (.errorVal "storage down") }

/-- Counterexample to C4 as stated: with the insert failing and the
deletes rejecting, the two delete calls are still issued, but the
caller receives the delete's error `storage down`, not an insert error
carrying the insert's message — because the source awaits the deletes
before throwing. -/
theorem insert_error_two_deletes_cex :
    (createProduct insertFailRemoveRejectEnv okData "u").1 =
      .error (.errorVal "storage down") ∧
    JsVal.errorVal "storage down" ≠
      JsVal.errorVal ("Failed to create product: " ++ "db down") ∧
    removeEvents (createProduct insertFailRemoveRejectEnv okData "u").2 =
      ["u/1_tok.png", "u/1_tok_thumb.png"] :=
  ⟨rfl, by decide, rfl⟩

/-- C5 (amended): after a failed insert the two compensating deletes
are dispatched and then awaited through `Promise.all` before the insert
error is thrown: a delete that resolves is ignored — even when its
result carries an error, which is therefore never surfaced — and the
caller receives the insert error; but a delete that rejects propagates
its own error to the caller in place of the insert error. -/
theorem insert_error_delete_semantics (env : Env) (data : ProductFormData)
    (userId : String) (img : ImageFile) (himg : data.image = some img)
    (w h : Nat) (hdims : env.fileDims = some (w, h))
    (hc1 : env.optCtxOk = true) (hc2 : env.optBlobOk = true)
    (hc3 : env.thumbLoadOk = true) (hc4 : env.thumbCtxOk = true)
    (hc5 : env.thumbBlobOk = true)
    (hup1 : env.upload (imagePathOf env userId img.name) = .ok { error := none })
    (hup2 : env.upload (thumbnailPathOf env userId img.name) = .ok { error := none })
    (m : String)
    (hins : env.insert (productRowOf env data userId img.name) =
      .ok { error := some m }) :
    (∀ e, env.remove (imagePathOf env userId img.name) = .error e →
        (createProduct env data userId).1 = .error (jsCatchWrap e)) ∧
    (∀ e rr, env.remove (imagePathOf env userId img.name) = .ok rr →
        env.remove (thumbnailPathOf env userId img.name) = .error e →
        (createProduct env data userId).1 = .error (jsCatchWrap e)) ∧
    (∀ rr1 rr2, env.remove (imagePathOf env userId img.name) = .ok rr1 →
        env.remove (thumbnailPathOf env userId img.name) = .ok rr2 →
        (createProduct env data userId).1 =
          .error (.errorVal ("Failed to create product: " ++ m))) := by
  have hins' : env.insert
      { name := data.name, marketplace := data.marketplace,
        marketplace_product_id := data.marketplace_product_id,
        giveaway := data.giveaway,
        image_path := env.publicUrl (imagePathOf env userId img.name),
        thumbnail_path := env.publicUrl (thumbnailPathOf env userId img.name),
        user_id := userId } = .ok { error := some m } := by
    simpa [productRowOf] using hins
  refine ⟨fun e hrm1 => ?_, fun e rr hrm1 hrm2 => ?_, fun rr1 rr2 hrm1 hrm2 => ?_⟩
  · simp [createProduct, createProductInner, applyCatch, jsCatchWrap,
      optimizeImage, createThumbnail, himg, hdims, hc1, hc2, hc3, hc4, hc5,
      hup1, hup2, hins', hrm1, productRowOf]
  · simp [createProduct, createProductInner, applyCatch, jsCatchWrap,
      optimizeImage, createThumbnail, himg, hdims, hc1, hc2, hc3, hc4, hc5,
      hup1, hup2, hins', hrm1, hrm2, productRowOf]
  · simp [createProduct, createProductInner, applyCatch, jsCatchWrap,
      optimizeImage, createThumbnail, himg, hdims, hc1, hc2, hc3, hc4, hc5,
      hup1, hup2, hins', hrm1, hrm2, productRowOf]

/-- Environment in which the insert resolves with an error and both
deletes resolve, the first of them reporting an (ignored) error. -/
def insertFailDeleteErrEnv : Env :=
  { okEnv with
    insert := fun _ => .ok { error := some "db fail" },
    remove := fun p =>
      .ok { error := if p = "u/1_tok.png" then some "delete denied" else none } }

/-- Witness for C5 (amended): a delete that resolves with an error
result is ignored and the insert error reaches the caller. -/
theorem insert_error_delete_semantics_witness :
    okData.image = some { name := "pic.png" } ∧
    insertFailDeleteErrEnv.remove "u/1_tok.png" =
      .ok { error := some "delete denied" } ∧
    (createProduct insertFailDeleteErrEnv okData "u").1 =
      .error (.errorVal ("Failed to create product: " ++ "db fail")) := by
  have h := insert_error_delete_semantics insertFailDeleteErrEnv okData "u"
    { name := "pic.png" } rfl 400 200 rfl rfl rfl rfl rfl rfl rfl rfl
    "db fail" rfl
  exact ⟨rfl, rfl,
    h.2.2 { error := some "delete denied" } { error := none } rfl rfl⟩

/-- Environment in which the insert resolves with an error and every
delete call rejects with `network lost`. -/
def insertFailRemoveRejectEnv2 : Env :=
  { okEnv with
    insert := fun _ => .ok { error := some "db err" },
    remove := fun _ => .error (.errorVal "network lost") }

/-- Counterexample to C5 as stated: the caller receives the delete's
own error `network lost` instead of the insert error, so the deletes
are awaited and a delete failure is surfaced to the caller. -/
theorem insert_error_delete_semantics_cex :
    (createProduct insertFailRemoveRejectEnv2 okData "u").1 =
      .error (.errorVal "network lost") ∧
    JsVal.errorVal "network lost" ≠
      JsVal.errorVal ("Failed to create product: " ++ "db err") :=
  ⟨rfl, by decide⟩

/-- The integer-division rendition of `Math.round(a / b)` used by the
embedding agrees with rounding the exact rational `a / b` half up. -/
theorem jsRound_eq_round (a b : Nat) (hb : 0 < b) :
    jsRound a b = (round ((a : ℚ) / (b : ℚ))).toNat := by
  have hb' : ((b : ℚ)) ≠ 0 := Nat.cast_ne_zero.mpr hb.ne'
  have h1 : (a : ℚ) / (b : ℚ) + 1 / 2 = ((2 * a + b : ℕ) : ℚ) / ((2 * b : ℕ) : ℚ) := by
    push_cast
    field_simp
    ring
  rw [round_eq, h1, Int.floor_toNat, Nat.floor_div_nat, Nat.floor_natCast]
  rfl

/-- C7: on an input of positive dimensions, a successful
`createThumbnail` produces a blob whose dimensions cap the longer side
at 200 preserving the aspect ratio: width `200` and height
`round(h * 200 / w)` when `w > h`, else width `round(w * 200 / h)` and
height `200`, with rounding taken on the exact rationals; in particular
400 by 200 gives 200 by 100, 200 by 400 gives 100 by 200 and 200 by 200
gives 200 by 200. -/
theorem thumbnail_dimensions (env : Env) (b : Blob)
    (hw : 0 < b.width) (hh : 0 < b.height)
    (hc3 : env.thumbLoadOk = true) (hc4 : env.thumbCtxOk = true)
    (hc5 : env.thumbBlobOk = true) :
    createThumbnail env b = .ok
      { width := if b.width > b.height then 200
          else (round ((b.width : ℚ) * 200 / (b.height : ℚ))).toNat,
        height := if b.width > b.height
          then (round ((b.height : ℚ) * 200 / (b.width : ℚ))).toNat else 200,
        quality := 70 } ∧
    thumbDims 400 200 = (200, 100) ∧
    thumbDims 200 400 = (100, 200) ∧
    thumbDims 200 200 = (200, 200) := by
  have key1 : jsRound (b.height * 200) b.width =
      (round ((b.height : ℚ) * 200 / (b.width : ℚ))).toNat := by
    rw [jsRound_eq_round _ _ hw]
    push_cast
    rfl
  have key2 : jsRound (b.width * 200) b.height =
      (round ((b.width : ℚ) * 200 / (b.height : ℚ))).toNat := by
    rw [jsRound_eq_round _ _ hh]
    push_cast
    rfl
  refine ⟨?_, by decide, by decide, by decide⟩
  simp only [createThumbnail, hc3, hc4, hc5, if_true]
  unfold thumbDims
  by_cases hgt : b.width > b.height <;> simp [hgt, key1, key2]

/-- Witness for C7 at a 400 by 200 input in a succeeding environment. -/
theorem thumbnail_dimensions_witness :
    (0 < (400 : Nat) ∧ 0 < (200 : Nat)) ∧
    thumbDims 400 200 = (200, 100) ∧
    createThumbnail okEnv { width := 400, height := 200, quality := 80 } =
      .ok { width := 200, height := 100, quality := 70 } := by
  have h := thumbnail_dimensions okEnv { width := 400, height := 200, quality := 80 }
    (by decide) (by decide) rfl rfl rfl
  exact ⟨⟨by decide, by decide⟩, h.2.1, rfl⟩

/-- C8: in every reachable execution, an insert call only occurs after
both uploads have resolved with error-free results, and the inserted
row references exactly the public URLs of the two uploaded keys: no
execution inserts a record referencing a key whose upload reported an
error. -/
theorem insert_only_after_upload_checks (env : Env) (data : ProductFormData)
    (userId : String) (row : ProductRow)
    (hmem : Event.insertCall row ∈ (createProduct env data userId).2) :
    ∃ img, data.image = some img ∧
      env.upload (imagePathOf env userId img.name) = .ok { error := none } ∧
      env.upload (thumbnailPathOf env userId img.name) = .ok { error := none } ∧
      row.image_path = env.publicUrl (imagePathOf env userId img.name) ∧
      row.thumbnail_path = env.publicUrl (thumbnailPathOf env userId img.name) := by
  have h : Event.insertCall row ∈ (createProductInner env data userId).2 := hmem
  unfold createProductInner at h
  rcases hi : data.image with _ | img
  · simp [hi] at h
  · simp only [hi] at h
    rcases ho : optimizeImage env img with e | ob
    · simp [ho] at h
    · simp only [ho] at h
      rcases ht : createThumbnail env ob with e | tb
      · simp [ht] at h
      · simp only [ht] at h
        rcases hu1 : env.upload (imagePathOf env userId img.name) with e1 | r1
        · simp [hu1] at h
        · rcases hu2 : env.upload (thumbnailPathOf env userId img.name) with e2 | r2
          · simp [hu1, hu2] at h
          · simp only [hu1, hu2] at h
            obtain ⟨oe1⟩ := r1
            obtain ⟨oe2⟩ := r2
            rcases oe1 with _ | m1
            · rcases oe2 with _ | m2
              · have hrow : row = productRowOf env data userId img.name := by
                  rcases hins : env.insert (productRowOf env data userId img.name)
                    with e3 | ins
                  · simpa [hins] using h
                  · rcases hie : ins.error with _ | m3
                    · simpa [hins, hie] using h
                    · rcases hr1 : env.remove (imagePathOf env userId img.name)
                        with e4 | rr1 <;>
                      rcases hr2 : env.remove (thumbnailPathOf env userId img.name)
                        with e5 | rr2 <;>
                      simpa [hins, hie, hr1, hr2] using h
                exact ⟨img, rfl, hu1, hu2,
                  by simp [hrow, productRowOf], by simp [hrow, productRowOf]⟩
              · simp at h
            · simp at h

/-- The row inserted by the fully successful run at `okEnv`. -/
def okRow : ProductRow :=
  { name := "Widget", marketplace := "amazon",
    marketplace_product_id := "B00X", giveaway := "1",
    image_path := "https://cdn.example/u/1_tok.png",
    thumbnail_path := "https://cdn.example/u/1_tok_thumb.png",
    user_id := "u" }

/-- Witness for C8 at the concrete successful run. -/
theorem insert_only_after_upload_checks_witness :
    Event.insertCall okRow ∈ (createProduct okEnv okData "u").2 ∧
    (∃ img, okData.image = some img ∧
      okEnv.upload (imagePathOf okEnv "u" img.name) = .ok { error := none } ∧
      okEnv.upload (thumbnailPathOf okEnv "u" img.name) = .ok { error := none } ∧
      okRow.image_path = okEnv.publicUrl (imagePathOf okEnv "u" img.name) ∧
      okRow.thumbnail_path = okEnv.publicUrl (thumbnailPathOf okEnv "u" img.name)) :=
  ⟨by decide, insert_only_after_upload_checks okEnv okData "u" okRow (by decide)⟩

/-- C9 (amended): every failure of the workflow surfaces to the caller
as an Error-typed value; a thrown Error is re-thrown unchanged, its
message preserved, while a non-Error thrown value is replaced by the
generic Error `Failed to create product`, which does not carry the
original value's content. -/
theorem catch_wraps_failures (env : Env) (data : ProductFormData)
    (userId : String) :
    (∀ m, (createProductInner env data userId).1 = .error (.errorVal m) →
        (createProduct env data userId).1 = .error (.errorVal m)) ∧
    (∀ m, (createProductInner env data userId).1 = .error (.otherVal m) →
        (createProduct env data userId).1 =
          .error (.errorVal "Failed to create product")) ∧
    (∀ e, (createProduct env data userId).1 = .error e →
        ∃ m, e = .errorVal m) := by
  refine ⟨fun m hm => ?_, fun m hm => ?_, fun e he => ?_⟩
  · simp [createProduct, applyCatch, jsCatchWrap, hm]
  · simp [createProduct, applyCatch, jsCatchWrap, hm]
  · rcases hinner : (createProductInner env data userId).1 with iv | v
    · rcases iv with m | m
      · have hc : (createProduct env data userId).1 = .error (.errorVal m) := by
          simp [createProduct, applyCatch, jsCatchWrap, hinner]
        rw [hc] at he
        injection he with h1
        exact ⟨m, h1.symm⟩
      · have hc : (createProduct env data userId).1 =
            .error (.errorVal "Failed to create product") := by
          simp [createProduct, applyCatch, jsCatchWrap, hinner]
        rw [hc] at he
        injection he with h1
        exact ⟨"Failed to create product", h1.symm⟩
    · have hc : (createProduct env data userId).1 = .ok v := by
        simp [createProduct, applyCatch, hinner]
      rw [hc] at he
      cases he

/-- Environment in which decoding the input image fails. -/
def decodeFailEnv : Env := { okEnv with fileDims := none }

/-- Witness for C9 (amended): an Error failure is re-thrown unchanged. -/
theorem catch_wraps_failures_witness :
    (createProductInner decodeFailEnv okData "u").1 =
      .error (.errorVal "Failed to load image") ∧
    (createProduct decodeFailEnv okData "u").1 =
      .error (.errorVal "Failed to load image") :=
  ⟨rfl, (catch_wraps_failures decodeFailEnv okData "u").1
    "Failed to load image" rfl⟩

/-- Environment in which the image upload rejects with a non-Error
thrown value whose content is `boom`. -/
def uploadRejectOtherEnv : Env :=
  { okEnv with upload := fun _ => .error (.otherVal "boom") }

/-- Counterexample to C9 as stated: a non-Error thrown value with
content `boom` reaches the caller as the generic
`Failed to create product` Error, which does not carry `boom`, so the
caller does not always receive an Error carrying the original
failure's message. -/
theorem catch_wraps_failures_cex :
    (createProductInner uploadRejectOtherEnv okData "u").1 =
      .error (.otherVal "boom") ∧
    (createProduct uploadRejectOtherEnv okData "u").1 =
      .error (.errorVal "Failed to create product") ∧
    ("Failed to create product" : String) ≠ "boom" :=
  ⟨rfl, rfl, by decide⟩

/-- The single-character split never produces the empty group list. -/
theorem splitOnChar_ne_nil (sep : Char) (l : List Char) :
    splitOnChar sep l ≠ [] := by
  induction l with
  | nil => simp [splitOnChar]
  | cons c cs ih =>
    simp only [splitOnChar]
    cases hsc : splitOnChar sep cs with
    | nil => simp
    | cons g gs => by_cases hc : c = sep <;> simp [hc]

/-- Splitting a list not containing the separator yields the one-group
list holding the whole input. -/
theorem splitOnChar_not_mem (sep : Char) (l : List Char) (h : sep ∉ l) :
    splitOnChar sep l = [l] := by
  induction l with
  | nil => rfl
  | cons c cs ih =>
    rw [List.mem_cons, not_or] at h
    obtain ⟨h1, h2⟩ := h
    simp only [splitOnChar, ih h2]
    rw [if_neg (fun hc => h1 hc.symm)]

/-- Splitting a list containing the separator yields at least two groups. -/
theorem splitOnChar_length_ge_two (sep : Char) (l : List Char) (h : sep ∈ l) :
    2 ≤ (splitOnChar sep l).length := by
  induction l with
  | nil => cases h
  | cons c cs ih =>
    simp only [splitOnChar]
    cases hsc : splitOnChar sep cs with
    | nil => exact absurd hsc (splitOnChar_ne_nil sep cs)
    | cons g gs =>
      by_cases hc : c = sep
      · simp [hc]
      · have hcs : sep ∈ cs := by
          rcases List.mem_cons.mp h with h1 | h2
          · exact absurd h1.symm hc
          · exact h2
        have h2 := ih hcs
        rw [hsc] at h2
        simp only [hc, if_false]
        simpa using h2

/-- The last group of a split is the separator-free tail after the last
separator occurrence. -/
theorem splitOnChar_getLast_append (sep : Char) (a b : List Char)
    (hb : sep ∉ b) :
    (splitOnChar sep (a ++ sep :: b)).getLast? = some b := by
  induction a with
  | nil =>
    simp only [List.nil_append, splitOnChar]
    rw [splitOnChar_not_mem sep b hb]
    simp
  | cons c a ih =>
    simp only [List.cons_append, splitOnChar]
    cases hsc : splitOnChar sep (a ++ sep :: b) with
    | nil => exact absurd hsc (splitOnChar_ne_nil _ _)
    | cons g gs =>
      rw [hsc] at ih
      have hlen : 2 ≤ (splitOnChar sep (a ++ sep :: b)).length :=
        splitOnChar_length_ge_two sep _ (by simp)
      rw [hsc] at hlen
      cases gs with
      | nil => simp at hlen
      | cons g2 gs2 =>
        by_cases hc : c = sep
        · simp only [hc, if_true]
          rw [List.getLast?_cons_cons]
          exact ih
        · simp only [hc, if_false]
          rw [List.getLast?_cons_cons]
          rwa [List.getLast?_cons_cons] at ih

/-- On a nonempty filename without a dot, the computed extension is the
whole filename (not `jpg`). -/
theorem extOf_eq_of_no_dot (name : String) (hne : name.data ≠ [])
    (h : '.' ∉ name.data) : extOf name = name := by
  obtain ⟨l⟩ := name
  have hne' : l ≠ [] := hne
  have h' : '.' ∉ l := h
  simp only [extOf, splitOnChar_not_mem _ _ h']
  simp [hne']

/-- On a filename of the shape `a.b` with a dot-free `b`, the computed
extension is `b`, or `jpg` when `b` is empty (trailing-dot filename). -/
theorem extOf_eq_of_dot (name : String) (a b : List Char)
    (hsplit : name.data = a ++ '.' :: b) (hb : '.' ∉ b) :
    extOf name = if b = [] then "jpg" else String.mk b := by
  obtain ⟨l⟩ := name
  have hsplit' : l = a ++ '.' :: b := hsplit
  subst hsplit'
  simp only [extOf, List.getLastD_eq_getLast?,
    splitOnChar_getLast_append _ _ _ hb]
  simp

/-- C6 (amended): both generated keys live under the per-user prefix
and share the `timestamp_randomToken` base, the thumbnail key adding
`_thumb` before the extension; the extension is the segment of the
filename after its last dot, except that a nonempty filename without
any dot is used whole as the extension, and `jpg` is used exactly when
that segment is empty (empty filename or filename ending in a dot). -/
theorem storage_key_format (env : Env) (userId fname : String) :
    imagePathOf env userId fname =
      userId ++ "/" ++ (toString env.now ++ "_" ++ env.randomToken) ++
        "." ++ extOf fname ∧
    thumbnailPathOf env userId fname =
      userId ++ "/" ++ (toString env.now ++ "_" ++ env.randomToken) ++
        "_thumb." ++ extOf fname ∧
    (fname.data ≠ [] → '.' ∉ fname.data → extOf fname = fname) ∧
    (∀ a b : List Char, fname.data = a ++ '.' :: b → '.' ∉ b →
      extOf fname = if b = [] then "jpg" else String.mk b) :=
  ⟨rfl, rfl, extOf_eq_of_no_dot fname,
    fun a b h1 h2 => extOf_eq_of_dot fname a b h1 h2⟩

/-- Witness for C6 (amended) on the filename `photo.png`. -/
theorem storage_key_format_witness :
    ("photo.png" : String).data = "photo".data ++ '.' :: "png".data ∧
    ('.' ∉ ("png" : String).data) ∧
    extOf "photo.png" =
      (if ("png" : String).data = [] then "jpg" else String.mk "png".data) :=
  ⟨by decide, by decide,
    (storage_key_format okEnv "u" "photo.png").2.2.2 "photo".data "png".data
      (by decide) (by decide)⟩

/-- A form submission whose image filename `photo` has no dot. -/
def noDotData : ProductFormData :=
  { name := "Widget", marketplace := "amazon",
    marketplace_product_id := "B00X", giveaway := "1",
    image := some { name := "photo" } }

/-- Counterexample to C6 as stated: for the extension-less filename
`photo`, the whole filename is used as the extension, so the generated
keys end in `.photo`, not in the claimed default `.jpg`. -/
theorem storage_key_format_cex :
    uploadEvents (createProduct okEnv noDotData "u").2 =
      ["u/1_tok.photo", "u/1_tok_thumb.photo"] ∧
    extOf "photo" = "photo" ∧
    ("u/1_tok.photo" : String) ≠ "u/1_tok.jpg" :=
  ⟨rfl, rfl, by decide⟩

end ProductService
